import Mathlib

/-!
# Stock-Talk: Stock Analysis & Ranking Pipeline — verification development

Shallow embedding of the stock analysis and ranking pipeline of
`app/services/report_generator.py` (class `ReportGenerator`) together with the
data model of `app/services/stock_fetcher.py` (`StockData`) and the
configuration constants of `app/core/config.py` (`Settings`).

Modelling conventions:
* Python `float` fields are modelled as rationals (`ℚ`); `Optional[float]`
  fields as `Option ℚ`.  Python truthiness (`if stock.rsi:` is false both for
  `None` and for `0.0`) is modelled explicitly.
* `round(x, 2)` is modelled as rational rounding to the nearest hundredth
  (`round2`); it agrees with Python except on exact half-hundredth ties,
  which none of the concrete inputs below hit.
* `next_earnings_date` is a `datetime`; the pipeline only ever uses the
  integer day difference `(next_earnings_date - datetime.now()).days`, so the
  field is embedded as that day count (`next_earnings_days : Option ℤ`),
  making the evaluation instant an explicit input as required for a pure
  embedding.
* The Python dataclass `StockData` does NOT define the attributes
  `three_month_return`, `sma_50`, `sma_200` or `business_summary`, yet
  `report_generator.py` reads `stock.three_month_return` (lines 357 and 422).
  In Python this raises `AttributeError`.  The narrative generators are
  therefore embedded in `Except String`, with the offending attribute read
  modelled as `Except.error`.
-/

/-- One entry of `StockData.insider_activity` (a dict built in
`StockFetcher._get_insider_activity` with keys `type`, `shares`, `value`,
`insider`, `date`). -/
structure InsiderTx where
  type : String
  shares : ℚ
  value : ℚ
  insider : String
  date : String
  deriving DecidableEq, Repr

/-- The `StockData` dataclass of `app/services/stock_fetcher.py` (lines
20–94).  Field names and optionality follow the source exactly;
`next_earnings_days` stands for `next_earnings_date` as explained above, and
`recent_news` items are news dicts whose content the pipeline never inspects,
so they are kept as opaque strings. -/
structure StockData where
  ticker : String
  name : String := ""
  sector : String := ""
  industry : String := ""
  market_cap : ℚ := 0
  market_cap_category : String := ""
  current_price : ℚ := 0
  all_time_high : ℚ := 0
  pct_from_ath : ℚ := 0
  fifty_two_week_high : ℚ := 0
  fifty_two_week_low : ℚ := 0
  pe_ratio : Option ℚ := none
  forward_pe : Option ℚ := none
  pb_ratio : Option ℚ := none
  ps_ratio : Option ℚ := none
  peg_ratio : Option ℚ := none
  ev_ebitda : Option ℚ := none
  debt_to_equity : Option ℚ := none
  current_ratio : Option ℚ := none
  free_cash_flow : Option ℚ := none
  profit_margin : Option ℚ := none
  gross_margin : Option ℚ := none
  operating_margin : Option ℚ := none
  dividend_yield : Option ℚ := none
  dividend_rate : Option ℚ := none
  rsi : Option ℚ := none
  beta : Option ℚ := none
  avg_volume : ℚ := 0
  recent_volume : ℚ := 0
  one_year_return : Option ℚ := none
  ytd_return : Option ℚ := none
  one_month_return : Option ℚ := none
  short_interest : Option ℚ := none
  institutional_ownership : Option ℚ := none
  insider_ownership : Option ℚ := none
  analyst_rating : String := ""
  analyst_count : ℕ := 0
  target_price_low : Option ℚ := none
  target_price_high : Option ℚ := none
  target_price_mean : Option ℚ := none
  next_earnings_days : Option ℤ := none
  earnings_surprise_pct : Option ℚ := none
  insider_activity : List InsiderTx := []
  recent_news : List String := []
  is_valid : Bool := true
  error_message : String := ""
  deriving DecidableEq, Repr

/-- Python truthiness of an `Optional[float]`: `None` and `0.0` are falsy. -/
def qtruthy : Option ℚ → Bool
  | none => false
  | some x => x != 0

/-- Configuration constants from `app/core/config.py` (`Settings`). -/
def TOP_STOCKS_COUNT : ℕ := 20
def DARK_HORSE_COUNT : ℕ := 2
def MIN_REDDIT_MENTIONS : ℕ := 5
def DARK_HORSE_MAX_MENTIONS : ℕ := 50
def DARK_HORSE_MAX_INSTITUTIONAL : ℚ := 40/100

/-- `round(x, 2)`: rounding to the nearest hundredth over `ℚ`. -/
def round2 (q : ℚ) : ℚ := (round (q * 100) : ℚ) / 100

namespace ReportGenerator

/-! ## `_calculate_score` (report_generator.py lines 133–199)

The Python code accumulates `score += bonus` over ten independent rule
blocks; each block is embedded as its own bonus function and the score is
their sum, rounded to two decimals exactly as in the source. -/

/-- Lines 140–145: price drop from ATH (`if stock.pct_from_ath:` is a
truthiness test on a plain float field). -/
def athBonus (stock : StockData) : ℚ :=
  if stock.pct_from_ath ≠ 0 then
    if 15 ≤ stock.pct_from_ath ∧ stock.pct_from_ath ≤ 50 then
      min stock.pct_from_ath 40 * (3/2)
    else if stock.pct_from_ath > 50 then 40
    else 0
  else 0

/-- Lines 147–151: Reddit mention volume. -/
def mentionsBonus (reddit_mentions : ℕ) : ℚ :=
  if 10 ≤ reddit_mentions ∧ reddit_mentions ≤ 100 then 20
  else if reddit_mentions > 100 then 10
  else 0

/-- Lines 153–157: sentiment bonus. -/
def sentimentBonus (sentiment : ℚ) : ℚ :=
  if sentiment > 3/10 then 15
  else if sentiment > 0 then 10
  else 0

/-- Lines 159–163: RSI oversold bonus (`stock.rsi and stock.rsi < 30`). -/
def rsiBonus (stock : StockData) : ℚ :=
  match stock.rsi with
  | none => 0
  | some r => if r ≠ 0 ∧ r < 30 then 25 else if r ≠ 0 ∧ r < 40 then 15 else 0

/-- Lines 165–170: P/E value band. -/
def peBonus (stock : StockData) : ℚ :=
  match stock.pe_ratio with
  | none => 0
  | some pe =>
    if pe ≠ 0 then
      if 5 < pe ∧ pe < 15 then 20
      else if 15 ≤ pe ∧ pe < 25 then 10
      else 0
    else 0

/-- Lines 172–174: PEG under 1. -/
def pegBonus (stock : StockData) : ℚ :=
  match stock.peg_ratio with
  | none => 0
  | some peg => if peg ≠ 0 ∧ peg < 1 then 20 else 0

/-- Lines 176–180: low debt. -/
def debtBonus (stock : StockData) : ℚ :=
  match stock.debt_to_equity with
  | none => 0
  | some de =>
    if de ≠ 0 ∧ de < 1/2 then 15
    else if de ≠ 0 ∧ de < 1 then 10
    else 0

/-- Lines 182–184: positive free cash flow. -/
def fcfBonus (stock : StockData) : ℚ :=
  match stock.free_cash_flow with
  | none => 0
  | some fcf => if fcf ≠ 0 ∧ fcf > 0 then 15 else 0

/-- Lines 186–189: any recent insider buy. -/
def insiderBonus (stock : StockData) : ℚ :=
  if (stock.insider_activity.filter (fun a => a.type == "buy")) ≠ [] then 20
  else 0

/-- Lines 191–197: analyst upside; the division by `current_price` is guarded
by the truthiness of `stock.current_price` (so zero/absent price skips the
rule and no division by zero happens). -/
def upsideBonus (stock : StockData) : ℚ :=
  match stock.target_price_mean with
  | none => 0
  | some tm =>
    if tm ≠ 0 ∧ stock.current_price ≠ 0 then
      let upside := (tm - stock.current_price) / stock.current_price * 100
      if upside > 30 then 20 else if upside > 15 then 10 else 0
    else 0

/-- `ReportGenerator._calculate_score` (lines 133–199). -/
def calculateScore (stock : StockData) (reddit_mentions : ℕ) (sentiment : ℚ) : ℚ :=
  round2 (athBonus stock + mentionsBonus reddit_mentions + sentimentBonus sentiment
    + rsiBonus stock + peBonus stock + pegBonus stock + debtBonus stock
    + fcfBonus stock + insiderBonus stock + upsideBonus stock)

/-! ## `_count_signals` (report_generator.py lines 201–274)

Eight sequential rule blocks each increment at most one of the three
counters; the result is the componentwise sum of the per-metric triples. -/

/-- Lines 207–214: RSI signal. -/
def rsiSignal (stock : StockData) : ℕ × ℕ × ℕ :=
  match stock.rsi with
  | none => (0, 0, 0)
  | some r =>
    if r ≠ 0 then
      if r < 30 then (1, 0, 0) else if r > 70 then (0, 1, 0) else (0, 0, 1)
    else (0, 0, 0)

/-- Lines 216–223: P/E signal. -/
def peSignal (stock : StockData) : ℕ × ℕ × ℕ :=
  match stock.pe_ratio with
  | none => (0, 0, 0)
  | some pe =>
    if pe ≠ 0 then
      if pe < 15 then (1, 0, 0) else if pe > 30 then (0, 1, 0) else (0, 0, 1)
    else (0, 0, 0)

/-- Lines 225–232: PEG signal. -/
def pegSignal (stock : StockData) : ℕ × ℕ × ℕ :=
  match stock.peg_ratio with
  | none => (0, 0, 0)
  | some peg =>
    if peg ≠ 0 then
      if peg < 1 then (1, 0, 0) else if peg > 2 then (0, 1, 0) else (0, 0, 1)
    else (0, 0, 0)

/-- Lines 234–241: debt signal. -/
def debtSignal (stock : StockData) : ℕ × ℕ × ℕ :=
  match stock.debt_to_equity with
  | none => (0, 0, 0)
  | some de =>
    if de ≠ 0 then
      if de < 1/2 then (1, 0, 0) else if de > 3/2 then (0, 1, 0) else (0, 0, 1)
    else (0, 0, 0)

/-- Lines 243–248: free-cash-flow signal (no neutral branch). -/
def fcfSignal (stock : StockData) : ℕ × ℕ × ℕ :=
  match stock.free_cash_flow with
  | none => (0, 0, 0)
  | some fcf =>
    if fcf ≠ 0 then
      if fcf > 0 then (1, 0, 0) else (0, 1, 0)
    else (0, 0, 0)

/-- Lines 250–257: short-interest signal. -/
def shortSignal (stock : StockData) : ℕ × ℕ × ℕ :=
  match stock.short_interest with
  | none => (0, 0, 0)
  | some si =>
    if si ≠ 0 then
      if si > 20 then (0, 1, 0) else if si < 5 then (1, 0, 0) else (0, 0, 1)
    else (0, 0, 0)

/-- Lines 259–265: insider buy-vs-sell balance; an exact balance (including an
empty activity list) increments no counter. -/
def insiderSignal (stock : StockData) : ℕ × ℕ × ℕ :=
  let buys := (stock.insider_activity.filter (fun a => a.type == "buy")).length
  let sells := (stock.insider_activity.filter (fun a => a.type == "sell")).length
  if buys > sells then (1, 0, 0) else if sells > buys then (0, 1, 0) else (0, 0, 0)

/-- Lines 267–272: 1-year-return signal; a truthy value in `(-30, 20]`
increments no counter. -/
def oneYearSignal (stock : StockData) : ℕ × ℕ × ℕ :=
  match stock.one_year_return with
  | none => (0, 0, 0)
  | some r =>
    if r ≠ 0 then
      if r < -30 then (0, 0, 1) else if r > 20 then (1, 0, 0) else (0, 0, 0)
    else (0, 0, 0)

/-- `ReportGenerator._count_signals` (lines 201–274): componentwise sum of the
eight metric signals, returned as (bullish, bearish, neutral). -/
def countSignals (stock : StockData) : ℕ × ℕ × ℕ :=
  let ts := [rsiSignal stock, peSignal stock, pegSignal stock, debtSignal stock,
    fcfSignal stock, shortSignal stock, insiderSignal stock, oneYearSignal stock]
  ts.foldr (fun a b => (a.1 + b.1, a.2.1 + b.2.1, a.2.2 + b.2.2)) (0, 0, 0)

/-- Modelled from the spec (claim side, for comparison with `countSignals`):
the number of metrics of the fixed eight-metric set that are "available" in a
snapshot.  A numeric metric is available when present and nonzero (Python
truthiness, which is how the source tests availability); the insider
buy-vs-sell balance is available when any insider activity is recorded. -/
def specAvailableMetrics (stock : StockData) : ℕ :=
  (if qtruthy stock.rsi then 1 else 0) +
  (if qtruthy stock.pe_ratio then 1 else 0) +
  (if qtruthy stock.peg_ratio then 1 else 0) +
  (if qtruthy stock.debt_to_equity then 1 else 0) +
  (if qtruthy stock.free_cash_flow then 1 else 0) +
  (if qtruthy stock.short_interest then 1 else 0) +
  (if stock.insider_activity ≠ [] then 1 else 0) +
  (if qtruthy stock.one_year_return then 1 else 0)

end ReportGenerator

/-! ## Generic stable descending insertion sort

Python `list.sort(key=..., reverse=True)` is a stable descending sort by the
key; a stable sort result is uniquely determined by the key order and the
input order, so it is embedded as the (stable) descending insertion sort. -/

/-- Insert `x` before the first element whose key is not larger, keeping
elements with strictly larger keys (and, by `foldr` use below, earlier
elements of equal key) in front. -/
def insertDescBy {α β : Type} [LinearOrder β] (key : α → β) (x : α) :
    List α → List α
  | [] => [x]
  | y :: ys => if key y ≤ key x then x :: y :: ys else y :: insertDescBy key x ys

/-- Stable descending sort by `key`. -/
def sortDescBy {α β : Type} [LinearOrder β] (key : α → β) (l : List α) : List α :=
  l.foldr (insertDescBy key) []

namespace ReportGenerator

/-! ## `_generate_buy_case` (report_generator.py lines 276–385)

The rule table builds a list of `(weight, text)` candidates.  The texts are
interpolated from concrete field values in the source; since no property
below depends on the exact numeric formatting, interpolation of values is
elided and each candidate keeps a fixed descriptive text.  At line 357 the
source reads `stock.three_month_return`, an attribute the `StockData`
dataclass never defines, so in Python the call raises `AttributeError`
before reaching the selection/fallback code (lines 361–385); the function is
therefore embedded in `Except String`. -/

/-- The buy-case candidate table before the momentum-recovery block
(lines 282–354), in source order. -/
def buyCaseCandidates (stock : StockData) : List (ℕ × String) :=
  -- Valuation signals (lines 283-296)
  (match stock.peg_ratio with
   | none => []
   | some peg =>
     if peg ≠ 0 ∧ peg < 1 then
       [((if peg < 1/2 then 90 else 75 : ℕ),
         "PEG suggests earnings growth outpaces the price - a classic value signal")]
     else []) ++
  (match stock.pe_ratio, stock.forward_pe with
   | some pe, some fpe =>
     if pe ≠ 0 ∧ fpe ≠ 0 ∧ fpe < pe * (8/10) then
       [(70, "Forward P/E is lower than trailing, pointing to accelerating earnings")]
     else []
   | _, _ => []) ++
  (match stock.pe_ratio with
   | none => []
   | some pe =>
     if pe ≠ 0 ∧ pe < 12 then
       [(65, "Trailing P/E is well below the market average, pricing in little growth")]
     else []) ++
  (match stock.pb_ratio with
   | none => []
   | some pb =>
     if pb ≠ 0 ∧ pb < 1 then
       [(60, "Price-to-book means the market values it below its net assets")]
     else []) ++
  -- Price action signals (lines 298-312)
  (if stock.pct_from_ath ≠ 0 ∧ stock.pct_from_ath ≥ 30 then
     [(80, "Trading far below its all-time high - a deep discount if fundamentals are intact")]
   else if stock.pct_from_ath ≠ 0 ∧ stock.pct_from_ath ≥ 20 then
     [(60, "Down from its all-time high, offering a potential discount entry")]
   else []) ++
  (match stock.rsi with
   | none => []
   | some r =>
     if r ≠ 0 ∧ r < 25 then
       [(85, "RSI is deeply oversold - selling pressure may be exhausted")]
     else if r ≠ 0 ∧ r < 30 then
       [(65, "RSI suggests oversold conditions")]
     else []) ++
  (if stock.fifty_two_week_low ≠ 0 ∧ stock.current_price ≠ 0 ∧
      stock.fifty_two_week_low > 0 then
     (if (stock.current_price - stock.fifty_two_week_low) / stock.fifty_two_week_low * 100 < 10 then
        [(55, "Only slightly above its 52-week low - near potential support")]
      else [])
   else []) ++
  -- Financial strength (lines 314-331)
  (match stock.free_cash_flow with
   | none => []
   | some fcf =>
     if fcf ≠ 0 ∧ fcf > 0 then
       if stock.market_cap ≠ 0 ∧ stock.market_cap > 0 then
         if fcf / stock.market_cap * 100 > 5 then
           [(80, "Free cash flow yield is strong relative to price")]
         else [(55, "Generating free cash flow, demonstrating real profitability")]
       else [(55, "Generating free cash flow")]
     else []) ++
  (match stock.profit_margin with
   | none => []
   | some pm =>
     if pm ≠ 0 ∧ pm > 20 then
       [(50, "Profit margin indicates pricing power and operational efficiency")]
     else []) ++
  (match stock.debt_to_equity with
   | none => []
   | some de =>
     if de < 3/10 then
       [(55, "Very low debt gives flexibility to invest, acquire, or weather downturns")]
     else if 0 < de ∧ de < 1/2 then
       [(40, "Manageable debt levels provide financial flexibility")]
     else []) ++
  -- Insider signals (lines 333-340)
  (let recent_buys := stock.insider_activity.filter (fun a => a.type == "buy")
   if recent_buys ≠ [] then
     let total_value : ℚ := (recent_buys.map (fun a => a.value)).sum
     if total_value > 1000000 then
       [(85, "Insiders bought heavily recently - executives putting their own money on the line")]
     else if total_value > 0 then
       [(65, "Recent insider buying signals management confidence")]
     else []
   else []) ++
  -- Analyst consensus (lines 342-350)
  (match stock.target_price_mean with
   | none => []
   | some tm =>
     if tm ≠ 0 ∧ stock.current_price ≠ 0 ∧ stock.current_price > 0 then
       let upside := (tm - stock.current_price) / stock.current_price * 100
       if upside > 40 ∧ stock.analyst_count ≠ 0 ∧ stock.analyst_count ≥ 10 then
         [(80, "Many analysts see large upside - strong Wall Street consensus")]
       else if upside > 20 ∧ stock.analyst_count ≠ 0 ∧ stock.analyst_count ≥ 5 then
         [(60, "Analysts project solid upside to the mean target")]
       else if upside > 20 then
         [(45, "Analyst target implies meaningful upside")]
       else []
     else []) ++
  -- Dividend (lines 352-354)
  (match stock.dividend_yield with
   | none => []
   | some dy =>
     if dy ≠ 0 ∧ dy > 3 then
       [(50, "Dividend yield provides income while you wait for price recovery")]
     else [])

/-- `ReportGenerator._generate_buy_case` (lines 276–385).  After building the
candidate table above, line 357 evaluates `stock.three_month_return and ...`;
`StockData` has no such attribute, so the call raises `AttributeError` for
every input.  Lines 358–385 (momentum and sentiment rules, sorting, top-4
selection, and the fallback sentence) are unreachable. -/
def generateBuyCase (stock : StockData) (reddit_mentions : ℕ) (sentiment : ℚ) :
    Except String String :=
  let weighted_points := buyCaseCandidates stock
  let _ := weighted_points
  let _ := reddit_mentions
  let _ := sentiment
  Except.error "AttributeError: StockData object has no attribute three_month_return"

end ReportGenerator

/-- `str.lower()` over the underlying character list (kernel-reducible,
unlike `String.toLower`). -/
def pyLower (s : String) : String := String.mk (s.data.map Char.toLower)

namespace ReportGenerator

/-! ## `_generate_risk_factors` (report_generator.py lines 387–503)

Like the buy case, a weighted candidate table.  At line 422 the source
evaluates `stock.one_year_return and stock.three_month_return`: when
`one_year_return` is truthy the second conjunct reads the undefined
`three_month_return` attribute and raises `AttributeError`; when it is falsy
the whole price-decline block is skipped and evaluation continues. -/

/-- Risk candidates appended before the price-decline block
(lines 393–419): earnings timing, debt burden, cash burn, margins. -/
def riskCandidatesHead (stock : StockData) : List (ℕ × String) :=
  (match stock.next_earnings_days with
   | none => []
   | some d =>
     if 0 < d ∧ d ≤ 7 then
       [(95, "Earnings within a week - a miss could trigger a sharp selloff")]
     else if 7 < d ∧ d ≤ 14 then
       [(70, "Earnings report soon; expect elevated volatility")]
     else []) ++
  (match stock.debt_to_equity with
   | none => []
   | some de =>
     if de ≠ 0 ∧ de > 3 then
       [(90, "D/E is dangerously high - a slowdown could threaten solvency")]
     else if de ≠ 0 ∧ de > 2 then
       [(75, "Heavy debt load limits flexibility")]
     else if de ≠ 0 ∧ de > 3/2 then
       [(55, "Above-average leverage adds pressure if earnings dip")]
     else []) ++
  (match stock.free_cash_flow with
   | none => []
   | some fcf =>
     if fcf ≠ 0 ∧ fcf < -1 then
       [(90, "Burning cash annually - may need dilutive offerings or more debt")]
     else if fcf ≠ 0 ∧ fcf < 0 then
       [(70, "Negative free cash flow - needs a path to profitability")]
     else []) ++
  (match stock.profit_margin with
   | none => []
   | some pm =>
     if pm < -10 then
       [(80, "Deeply negative profit margin - losing money on every dollar of revenue")]
     else if pm < 0 then
       [(60, "Operating at a loss - revenue growth needs to outpace costs")]
     else [])

/-- Risk candidates appended after the price-decline block (lines 432–485):
short interest, stretched valuation, beta, cap size, analyst skepticism,
analyst-target downside, net insider selling, RSI overbought, institutional
crowding. -/
def riskCandidatesTail (stock : StockData) : List (ℕ × String) :=
  (match stock.short_interest with
   | none => []
   | some si =>
     if si ≠ 0 ∧ si > 25 then
       [(85, "Extreme short interest - hedge funds aggressively betting against it")]
     else if si ≠ 0 ∧ si > 15 then
       [(65, "Significant short interest - professionals betting on further declines")]
     else if si ≠ 0 ∧ si > 10 then
       [(45, "Moderate short interest - some bearish positioning worth noting")]
     else []) ++
  (match stock.pe_ratio with
   | none => []
   | some pe =>
     if pe ≠ 0 ∧ pe > 50 then
       [(70, "P/E requires exceptional growth to justify - a miss could re-rate it")]
     else if pe ≠ 0 ∧ pe > 35 then
       [(50, "P/E prices in significant growth; a guidance cut could hurt")]
     else []) ++
  (match stock.beta with
   | none => []
   | some b =>
     if b ≠ 0 ∧ b > 2 then
       [(65, "High beta - market drops are amplified")]
     else if b ≠ 0 ∧ b > 3/2 then
       [(45, "Elevated volatility versus the broader market")]
     else []) ++
  (if stock.market_cap_category = "micro" ∧ stock.market_cap ≠ 0 then
     [(70, "Micro-cap with likely thin volume - wide spreads make entry and exit costly")]
   else if stock.market_cap_category = "small" ∧ stock.market_cap ≠ 0 then
     [(50, "Small-cap - more vulnerable to slowdowns and less institutional support")]
   else []) ++
  (if pyLower stock.analyst_rating = "sell" ∨ pyLower stock.analyst_rating = "strong sell"
      ∨ pyLower stock.analyst_rating = "underperform" then
     [(75, "Analyst consensus is bearish - Wall Street sees more downside")]
   else if stock.analyst_count ≠ 0 ∧ stock.analyst_count < 3 ∧
       stock.market_cap ≠ 0 ∧ stock.market_cap < 5 then
     [(50, "Very few analysts cover it - low scrutiny may hide risks")]
   else []) ++
  (match stock.target_price_mean with
   | none => []
   | some tm =>
     if tm ≠ 0 ∧ stock.current_price ≠ 0 ∧ stock.current_price > 0 then
       if (tm - stock.current_price) / stock.current_price * 100 < -10 then
         [(80, "Average analyst target implies downside from the current price")]
       else []
     else []) ++
  (let recent_sells := stock.insider_activity.filter (fun a => a.type == "sell")
   let recent_buys := stock.insider_activity.filter (fun a => a.type == "buy")
   if recent_sells ≠ [] ∧ recent_sells.length > recent_buys.length + 1 then
     (if ((recent_sells.map (fun a => a.value)).sum : ℚ) > 1000000 then
        [(70, "Insiders net selling recently - executives reducing their own exposure")]
      else [])
   else []) ++
  (match stock.rsi with
   | none => []
   | some r =>
     if r ≠ 0 ∧ r > 75 then
       [(55, "RSI is overbought - recent rally may be overextended")]
     else []) ++
  (match stock.institutional_ownership with
   | none => []
   | some io =>
     if io ≠ 0 ∧ io > 95 then
       [(45, "Very high institutional ownership - institutional selling would hit hard")]
     else [])

/-- The company-specific fallback sentence (lines 491–501), emitted when no
weighted risk qualifies. -/
def fallbackRisk (stock : StockData) : String :=
  let metrics :=
    (if qtruthy stock.pe_ratio then ["P/E"] else []) ++
    (match stock.debt_to_equity with
     | some _ => ["D/E"]
     | none => []) ++
    (if qtruthy stock.beta then ["beta"] else [])
  let metrics_str := if metrics.isEmpty then "limited data" else String.intercalate ", " metrics
  stock.name ++ " shows no major red flags (" ++ metrics_str ++
    "), but verify with recent filings and news before acting"

/-- `ReportGenerator._generate_risk_factors` (lines 387–503).  When
`one_year_return` is truthy, line 422 reads the undefined
`three_month_return` attribute and the call raises `AttributeError`;
otherwise candidates are sorted by severity descending (stable), the top 5
texts are taken, and an empty selection falls back to a single
company-specific sentence. -/
def generateRiskFactors (stock : StockData) : Except String (List String) :=
  let head := riskCandidatesHead stock
  if qtruthy stock.one_year_return then
    Except.error "AttributeError: StockData object has no attribute three_month_return"
  else
    let weighted_risks := head ++ riskCandidatesTail stock
    let risks := ((sortDescBy Prod.fst weighted_risks).take 5).map Prod.snd
    Except.ok (if risks.isEmpty then [fallbackRisk stock] else risks)

/-! ## `AnalyzedStock` (report_generator.py lines 77–96) and
`_identify_dark_horses` (lines 505–538) -/

end ReportGenerator

/-- The `AnalyzedStock` dataclass (report_generator.py lines 77–96).  The
narrative text fields `buy_case` and `risk_factors` keep their dataclass
defaults in this development: filling them calls `_generate_buy_case`, which
raises `AttributeError` on every input (see `ReportGenerator.generateBuyCase`),
and neither field is ever read by the dark-horse pass or the rank assembly
verified below. -/
structure AnalyzedStock where
  ticker : String
  name : String := ""
  sector : String := ""
  industry : String := ""
  stock_data : StockData
  reddit_mentions : ℕ := 0
  reddit_sentiment : ℚ := 0
  score : ℚ := 0
  is_dark_horse : Bool := false
  sector_category : String := ""
  buy_case : String := ""
  risk_factors : List String := []
  dark_horse_reasons : List String := []
  bullish_signals : ℕ := 0
  bearish_signals : ℕ := 0
  neutral_signals : ℕ := 0
  deriving DecidableEq, Repr

namespace ReportGenerator

/-- The dark-horse reason strings accumulated for one stock
(lines 509–530), in source order.  The four checks: low Reddit mentions, low
(truthy) institutional ownership, small/mid market-cap category, low (truthy)
analyst coverage. -/
def darkHorseReasons (stock : AnalyzedStock) : List String :=
  (if stock.reddit_mentions < DARK_HORSE_MAX_MENTIONS then
     ["Only a few Reddit mentions this week - under the radar"]
   else []) ++
  (match stock.stock_data.institutional_ownership with
   | none => []
   | some io =>
     if io ≠ 0 ∧ io < DARK_HORSE_MAX_INSTITUTIONAL * 100 then
       ["Low institutional ownership - big money has not piled in yet"]
     else []) ++
  (if stock.stock_data.market_cap_category = "small" ∨
      stock.stock_data.market_cap_category = "mid" then
     ["Small or mid cap with less analyst coverage"]
   else []) ++
  (if stock.stock_data.analyst_count ≠ 0 ∧ stock.stock_data.analyst_count < 10 then
     ["Few analysts covering - potentially undiscovered"]
   else [])

/-- The qualification test of line 533: at least two reasons and a composite
score strictly above the fixed floor 50. -/
def qualifiesDarkHorse (stock : AnalyzedStock) : Prop :=
  2 ≤ (darkHorseReasons stock).length ∧ 50 < stock.score

instance (stock : AnalyzedStock) : Decidable (qualifiesDarkHorse stock) := by
  unfold qualifiesDarkHorse; infer_instance

/-- The in-place update of lines 534–535. -/
def updateDarkHorse (stock : AnalyzedStock) : AnalyzedStock :=
  if qualifiesDarkHorse stock then
    { stock with is_dark_horse := true, dark_horse_reasons := darkHorseReasons stock }
  else stock

/-- `ReportGenerator._identify_dark_horses` (lines 505–538).  The Python
function mutates qualifying stocks in the input list (setting the flag and
reasons) and returns the list of qualifying stocks in input order; it is
embedded as returning the pair (updated input list, dark-horse list). -/
def identifyDarkHorses : List AnalyzedStock → List AnalyzedStock × List AnalyzedStock
  | [] => ([], [])
  | stock :: rest =>
    let p := identifyDarkHorses rest
    if qualifiesDarkHorse stock then
      let s := updateDarkHorse stock
      (s :: p.1, s :: p.2)
    else (stock :: p.1, p.2)

/-! ## Rank assembly: `generate_report` steps 5–8
(report_generator.py lines 687–746) -/

/-- `enumerate(final_picks, 1)` (line 746): attach ranks `n, n+1, …`. -/
def assignRanksFrom (n : ℕ) : List AnalyzedStock → List (ℕ × AnalyzedStock)
  | [] => []
  | s :: rest => (n, s) :: assignRanksFrom (n + 1) rest

/-- Ranks starting at 1. -/
def assignRanks (l : List AnalyzedStock) : List (ℕ × AnalyzedStock) :=
  assignRanksFrom 1 l

/-- Steps 5–6 and the rank numbering of step 8 of
`ReportGenerator.generate_report` (lines 687–746): identify dark horses,
sort the analyzed list by score descending (stable; the separate dark-horse
list keeps its pre-sort input order), take the first
`TOP_STOCKS_COUNT − DARK_HORSE_COUNT` non-dark-horse stocks as main picks
and the first `DARK_HORSE_COUNT` dark horses as dark-horse picks,
concatenate, and assign ranks 1..N. -/
def rankAssembly (analyzed_stocks : List AnalyzedStock) : List (ℕ × AnalyzedStock) :=
  let p := identifyDarkHorses analyzed_stocks
  let sorted := sortDescBy (fun s => s.score) p.1
  let main_picks :=
    (sorted.filter (fun s => !s.is_dark_horse)).take (TOP_STOCKS_COUNT - DARK_HORSE_COUNT)
  let dark_horse_picks := p.2.take DARK_HORSE_COUNT
  assignRanks (main_picks ++ dark_horse_picks)

/-- Step 4 of `generate_report` for one ticker (lines 649–679): build the
`AnalyzedStock` for a valid snapshot.  `sector_category` and the narrative
text fields keep their defaults here: the sector classifier output is never
read by scoring, dark-horse selection, or ranking, and the narrative call
raises `AttributeError` in the source (see `generateBuyCase`). -/
def analyzeStock (ticker : String) (stock_data : StockData)
    (mentions : ℕ) (sentiment : ℚ) : AnalyzedStock :=
  let signals := countSignals stock_data
  { ticker := ticker
    name := stock_data.name
    sector := stock_data.sector
    industry := stock_data.industry
    stock_data := stock_data
    reddit_mentions := mentions
    reddit_sentiment := sentiment
    score := calculateScore stock_data mentions sentiment
    bullish_signals := signals.1
    bearish_signals := signals.2.1
    neutral_signals := signals.2.2 }

/-- The analysis loop plus rank assembly of `generate_report`
(lines 627–746), starting from the fetched snapshot map paired with each
mention aggregate of each ticker: skip invalid snapshots, analyze the rest in
order, then assemble the ranked report list. -/
def analyzeAndRank (entries : List (String × StockData × ℕ × ℚ)) :
    List (ℕ × AnalyzedStock) :=
  rankAssembly
    ((entries.filter (fun e => e.2.1.is_valid)).map
      (fun e => analyzeStock e.1 e.2.1 e.2.2.1 e.2.2.2))

end ReportGenerator

/-! ## Optional-field removal (for absence-neutrality of the score)

`clearField f s` replaces one optional field of the snapshot by its absent
value: `None` for `Optional` dataclass fields, the empty list for the list
fields. -/

/-- The optional fields of `StockData` (the `Optional[...]` dataclass fields
plus the two list fields whose absent value is the empty list). -/
inductive OptField where
  | pe_ratio | forward_pe | pb_ratio | ps_ratio | peg_ratio | ev_ebitda
  | debt_to_equity | current_ratio | free_cash_flow | profit_margin
  | gross_margin | operating_margin | dividend_yield | dividend_rate
  | rsi | beta | one_year_return | ytd_return | one_month_return
  | short_interest | institutional_ownership | insider_ownership
  | target_price_low | target_price_high | target_price_mean
  | next_earnings_days | earnings_surprise_pct | insider_activity | recent_news
  deriving DecidableEq, Repr

/-- Replace one optional field by its absent value. -/
def clearField : OptField → StockData → StockData
  | .pe_ratio, s => { s with pe_ratio := none }
  | .forward_pe, s => { s with forward_pe := none }
  | .pb_ratio, s => { s with pb_ratio := none }
  | .ps_ratio, s => { s with ps_ratio := none }
  | .peg_ratio, s => { s with peg_ratio := none }
  | .ev_ebitda, s => { s with ev_ebitda := none }
  | .debt_to_equity, s => { s with debt_to_equity := none }
  | .current_ratio, s => { s with current_ratio := none }
  | .free_cash_flow, s => { s with free_cash_flow := none }
  | .profit_margin, s => { s with profit_margin := none }
  | .gross_margin, s => { s with gross_margin := none }
  | .operating_margin, s => { s with operating_margin := none }
  | .dividend_yield, s => { s with dividend_yield := none }
  | .dividend_rate, s => { s with dividend_rate := none }
  | .rsi, s => { s with rsi := none }
  | .beta, s => { s with beta := none }
  | .one_year_return, s => { s with one_year_return := none }
  | .ytd_return, s => { s with ytd_return := none }
  | .one_month_return, s => { s with one_month_return := none }
  | .short_interest, s => { s with short_interest := none }
  | .institutional_ownership, s => { s with institutional_ownership := none }
  | .insider_ownership, s => { s with insider_ownership := none }
  | .target_price_low, s => { s with target_price_low := none }
  | .target_price_high, s => { s with target_price_high := none }
  | .target_price_mean, s => { s with target_price_mean := none }
  | .next_earnings_days, s => { s with next_earnings_days := none }
  | .earnings_surprise_pct, s => { s with earnings_surprise_pct := none }
  | .insider_activity, s => { s with insider_activity := [] }
  | .recent_news, s => { s with recent_news := [] }

/-! ## Concrete test inputs for the claims -/

/-- A snapshot with an analyst target but zero (falsy) current price. -/
def snapZeroPrice : StockData := { ticker := "ZPX", target_price_mean := some 100 }

/-- A snapshot with earnings 3 days out and a truthy 1-year return. -/
def snapEarningsSoon : StockData :=
  { ticker := "ERN", next_earnings_days := some 3, one_year_return := some (-50) }

/-- A bare snapshot: every optional field absent, every float zero. -/
def snapBare : StockData := { ticker := "BRE" }

/-- A snapshot whose only available metric is a 1-year return of 10%. -/
def snapOneYearOnly : StockData := { ticker := "OYR", one_year_return := some 10 }

/-- An analyzed stock qualifying as a dark horse (small-cap, zero mentions)
with the given composite score. -/
def mkDark (t : String) (sc : ℚ) : AnalyzedStock :=
  { ticker := t, stock_data := { ticker := t, market_cap_category := "small" }, score := sc }

/-- Three dark-horse qualifiers in input order with ascending scores. -/
def darkInput : List AnalyzedStock := [mkDark "A" 60, mkDark "B" 70, mkDark "C" 80]

/-- A plain analyzed stock (score 0, no dark-horse reasons beyond mentions). -/
def plainStock (t : String) : AnalyzedStock := { ticker := t, stock_data := { ticker := t } }

/-- Pipeline entries: two bare snapshots (equal scores 0) and one with an
oversold RSI (score 25). -/
def entryA : String × StockData × ℕ × ℚ := ("AAA", { ticker := "AAA" }, 0, 0)
def entryB : String × StockData × ℕ × ℚ := ("BBB", { ticker := "BBB" }, 0, 0)
def entryC : String × StockData × ℕ × ℚ := ("CCC", { ticker := "CCC", rsi := some 25 }, 0, 0)

namespace ReportGenerator

/-- The analyzed-stock list produced by the step-4 loop of `generate_report`:
invalid snapshots skipped, the rest analyzed in input order. -/
def analyzedOf (entries : List (String × StockData × ℕ × ℚ)) : List AnalyzedStock :=
  (entries.filter (fun e => e.2.1.is_valid)).map
    (fun e => analyzeStock e.1 e.2.1 e.2.2.1 e.2.2.2)

end ReportGenerator

/-- The rank-report invariant claimed for the final report list: contiguous
ranks 1..N, a nonempty list, every dark-horse-flagged entry in a trailing
block of at most `DARK_HORSE_COUNT` positions, every preceding main-pick
entry unflagged, and the two groups sharing no entry. -/
def RankedReportInvariant (analyzed : List AnalyzedStock) : Prop :=
  (ReportGenerator.rankAssembly analyzed).map Prod.fst =
      List.range' 1 (ReportGenerator.rankAssembly analyzed).length ∧
  ReportGenerator.rankAssembly analyzed ≠ [] ∧
  ∃ k ≤ DARK_HORSE_COUNT,
    (∀ p ∈ (ReportGenerator.rankAssembly analyzed).take
        ((ReportGenerator.rankAssembly analyzed).length - k), p.2.is_dark_horse = false) ∧
    (∀ p ∈ (ReportGenerator.rankAssembly analyzed).drop
        ((ReportGenerator.rankAssembly analyzed).length - k), p.2.is_dark_horse = true) ∧
    (∀ p ∈ (ReportGenerator.rankAssembly analyzed).take
        ((ReportGenerator.rankAssembly analyzed).length - k),
      ∀ q ∈ (ReportGenerator.rankAssembly analyzed).drop
        ((ReportGenerator.rankAssembly analyzed).length - k), p.2 ≠ q.2)

/-! ## Arithmetic lemmas for the composite score -/

lemma round2_mono {x y : ℚ} (h : x ≤ y) : round2 x ≤ round2 y := by
  unfold round2
  have hr : round (x * 100) ≤ round (y * 100) := by
    rw [round_eq, round_eq]
    exact Int.floor_le_floor (by linarith)
  have hc : ((round (x * 100) : ℤ) : ℚ) ≤ ((round (y * 100) : ℤ) : ℚ) := by
    exact_mod_cast hr
  linarith

namespace ReportGenerator

lemma athBonus_bounds (s : StockData) : 0 ≤ athBonus s ∧ athBonus s ≤ 60 := by
  unfold athBonus
  split_ifs with h1 h2 h3
  · have h0 : (0 : ℚ) ≤ min s.pct_from_ath 40 := le_min (by linarith [h2.1]) (by norm_num)
    have h40 : min s.pct_from_ath 40 ≤ 40 := min_le_right _ _
    constructor <;> linarith
  · norm_num
  · norm_num
  · norm_num

lemma mentionsBonus_bounds (m : ℕ) : 0 ≤ mentionsBonus m ∧ mentionsBonus m ≤ 20 := by
  unfold mentionsBonus; split_ifs <;> norm_num

lemma sentimentBonus_bounds (x : ℚ) : 0 ≤ sentimentBonus x ∧ sentimentBonus x ≤ 15 := by
  unfold sentimentBonus; split_ifs <;> norm_num

lemma rsiBonus_bounds (s : StockData) : 0 ≤ rsiBonus s ∧ rsiBonus s ≤ 25 := by
  rcases hr : s.rsi with _ | r <;> simp only [rsiBonus, hr]
  · norm_num
  · split_ifs <;> norm_num

lemma peBonus_bounds (s : StockData) : 0 ≤ peBonus s ∧ peBonus s ≤ 20 := by
  rcases hr : s.pe_ratio with _ | pe <;> simp only [peBonus, hr]
  · norm_num
  · split_ifs <;> norm_num

lemma pegBonus_bounds (s : StockData) : 0 ≤ pegBonus s ∧ pegBonus s ≤ 20 := by
  rcases hr : s.peg_ratio with _ | peg <;> simp only [pegBonus, hr]
  · norm_num
  · split_ifs <;> norm_num

lemma debtBonus_bounds (s : StockData) : 0 ≤ debtBonus s ∧ debtBonus s ≤ 15 := by
  rcases hr : s.debt_to_equity with _ | de <;> simp only [debtBonus, hr]
  · norm_num
  · split_ifs <;> norm_num

lemma fcfBonus_bounds (s : StockData) : 0 ≤ fcfBonus s ∧ fcfBonus s ≤ 15 := by
  rcases hr : s.free_cash_flow with _ | fcf <;> simp only [fcfBonus, hr]
  · norm_num
  · split_ifs <;> norm_num

lemma insiderBonus_bounds (s : StockData) : 0 ≤ insiderBonus s ∧ insiderBonus s ≤ 20 := by
  unfold insiderBonus; split_ifs <;> norm_num

lemma upsideBonus_bounds (s : StockData) : 0 ≤ upsideBonus s ∧ upsideBonus s ≤ 20 := by
  rcases hr : s.target_price_mean with _ | tm <;> simp only [upsideBonus, hr]
  · norm_num
  · split_ifs <;> norm_num

end ReportGenerator

namespace ReportGenerator

/-- All ten bonuses compared pointwise bound the composite score. -/
lemma calculateScore_le_of_bonus_le (s' s : StockData) (m : ℕ) (sent : ℚ)
    (hath : athBonus s' ≤ athBonus s) (hrsi : rsiBonus s' ≤ rsiBonus s)
    (hpe : peBonus s' ≤ peBonus s) (hpeg : pegBonus s' ≤ pegBonus s)
    (hdebt : debtBonus s' ≤ debtBonus s) (hfcf : fcfBonus s' ≤ fcfBonus s)
    (hins : insiderBonus s' ≤ insiderBonus s) (hup : upsideBonus s' ≤ upsideBonus s) :
    calculateScore s' m sent ≤ calculateScore s m sent := by
  unfold calculateScore
  exact round2_mono (by linarith)

end ReportGenerator

/-- Claim C10: for every snapshot, mention count, and sentiment, the composite
score returned by `_calculate_score` lies between 0 and 230 inclusive (the
sum of the maximal bonuses of the ten rules: 60 ATH drawdown + 20 mentions +
15 sentiment + 25 RSI + 20 P/E + 20 PEG + 15 debt + 15 FCF + 20 insider buys
+ 20 analyst upside). -/
theorem calculateScore_bounds (s : StockData) (m : ℕ) (sent : ℚ) :
    0 ≤ ReportGenerator.calculateScore s m sent ∧
      ReportGenerator.calculateScore s m sent ≤ 230 := by
  obtain ⟨a0, a1⟩ := ReportGenerator.athBonus_bounds s
  obtain ⟨b0, b1⟩ := ReportGenerator.mentionsBonus_bounds m
  obtain ⟨c0, c1⟩ := ReportGenerator.sentimentBonus_bounds sent
  obtain ⟨d0, d1⟩ := ReportGenerator.rsiBonus_bounds s
  obtain ⟨e0, e1⟩ := ReportGenerator.peBonus_bounds s
  obtain ⟨f0, f1⟩ := ReportGenerator.pegBonus_bounds s
  obtain ⟨g0, g1⟩ := ReportGenerator.debtBonus_bounds s
  obtain ⟨h0, h1⟩ := ReportGenerator.fcfBonus_bounds s
  obtain ⟨i0, i1⟩ := ReportGenerator.insiderBonus_bounds s
  obtain ⟨j0, j1⟩ := ReportGenerator.upsideBonus_bounds s
  have hz : round2 0 = 0 := by norm_num [round2]
  have ht : round2 230 = 230 := by norm_num [round2]
  unfold ReportGenerator.calculateScore
  constructor
  · have h := round2_mono (x := 0)
      (y := ReportGenerator.athBonus s + ReportGenerator.mentionsBonus m +
        ReportGenerator.sentimentBonus sent + ReportGenerator.rsiBonus s +
        ReportGenerator.peBonus s + ReportGenerator.pegBonus s +
        ReportGenerator.debtBonus s + ReportGenerator.fcfBonus s +
        ReportGenerator.insiderBonus s + ReportGenerator.upsideBonus s)
      (by linarith)
    rwa [hz] at h
  · have h := round2_mono
      (x := ReportGenerator.athBonus s + ReportGenerator.mentionsBonus m +
        ReportGenerator.sentimentBonus sent + ReportGenerator.rsiBonus s +
        ReportGenerator.peBonus s + ReportGenerator.pegBonus s +
        ReportGenerator.debtBonus s + ReportGenerator.fcfBonus s +
        ReportGenerator.insiderBonus s + ReportGenerator.upsideBonus s)
      (y := 230) (by linarith)
    rwa [ht] at h

/-- Claim C5: for every snapshot, mention count, and sentiment, and for every
optional field of the snapshot, replacing that field by its absent value in
a call to `_calculate_score` yields a score less than or equal to the
original score (the embedding is total, so no exception can be raised: the
only division, by `current_price`, is truthiness-guarded in the source). -/
theorem calculateScore_clearField_le (f : OptField) (s : StockData) (m : ℕ) (sent : ℚ) :
    ReportGenerator.calculateScore (clearField f s) m sent ≤
      ReportGenerator.calculateScore s m sent := by
  cases f
  case pe_ratio =>
    exact ReportGenerator.calculateScore_le_of_bonus_le _ _ m sent (le_refl _)
      (le_refl _) (ReportGenerator.peBonus_bounds s).1 (le_refl _) (le_refl _)
      (le_refl _) (le_refl _) (le_refl _)
  case peg_ratio =>
    exact ReportGenerator.calculateScore_le_of_bonus_le _ _ m sent (le_refl _)
      (le_refl _) (le_refl _) (ReportGenerator.pegBonus_bounds s).1 (le_refl _)
      (le_refl _) (le_refl _) (le_refl _)
  case debt_to_equity =>
    exact ReportGenerator.calculateScore_le_of_bonus_le _ _ m sent (le_refl _)
      (le_refl _) (le_refl _) (le_refl _) (ReportGenerator.debtBonus_bounds s).1
      (le_refl _) (le_refl _) (le_refl _)
  case free_cash_flow =>
    exact ReportGenerator.calculateScore_le_of_bonus_le _ _ m sent (le_refl _)
      (le_refl _) (le_refl _) (le_refl _) (le_refl _)
      (ReportGenerator.fcfBonus_bounds s).1 (le_refl _) (le_refl _)
  case rsi =>
    exact ReportGenerator.calculateScore_le_of_bonus_le _ _ m sent (le_refl _)
      (ReportGenerator.rsiBonus_bounds s).1 (le_refl _) (le_refl _) (le_refl _)
      (le_refl _) (le_refl _) (le_refl _)
  case target_price_mean =>
    exact ReportGenerator.calculateScore_le_of_bonus_le _ _ m sent (le_refl _)
      (le_refl _) (le_refl _) (le_refl _) (le_refl _) (le_refl _) (le_refl _)
      (ReportGenerator.upsideBonus_bounds s).1
  case insider_activity =>
    exact ReportGenerator.calculateScore_le_of_bonus_le _ _ m sent (le_refl _)
      (le_refl _) (le_refl _) (le_refl _) (le_refl _) (le_refl _)
      (ReportGenerator.insiderBonus_bounds s).1 (le_refl _)
  all_goals exact le_refl _

namespace ReportGenerator

lemma rsiSignal_le (s : StockData) :
    (rsiSignal s).1 + (rsiSignal s).2.1 + (rsiSignal s).2.2 ≤
      if qtruthy s.rsi then 1 else 0 := by
  rcases hr : s.rsi with _ | r <;> simp only [rsiSignal, qtruthy, hr] <;>
    split_ifs <;> simp_all [bne_iff_ne]

lemma peSignal_le (s : StockData) :
    (peSignal s).1 + (peSignal s).2.1 + (peSignal s).2.2 ≤
      if qtruthy s.pe_ratio then 1 else 0 := by
  rcases hr : s.pe_ratio with _ | pe <;> simp only [peSignal, qtruthy, hr] <;>
    split_ifs <;> simp_all [bne_iff_ne]

lemma pegSignal_le (s : StockData) :
    (pegSignal s).1 + (pegSignal s).2.1 + (pegSignal s).2.2 ≤
      if qtruthy s.peg_ratio then 1 else 0 := by
  rcases hr : s.peg_ratio with _ | peg <;> simp only [pegSignal, qtruthy, hr] <;>
    split_ifs <;> simp_all [bne_iff_ne]

lemma debtSignal_le (s : StockData) :
    (debtSignal s).1 + (debtSignal s).2.1 + (debtSignal s).2.2 ≤
      if qtruthy s.debt_to_equity then 1 else 0 := by
  rcases hr : s.debt_to_equity with _ | de <;> simp only [debtSignal, qtruthy, hr] <;>
    split_ifs <;> simp_all [bne_iff_ne]

lemma fcfSignal_le (s : StockData) :
    (fcfSignal s).1 + (fcfSignal s).2.1 + (fcfSignal s).2.2 ≤
      if qtruthy s.free_cash_flow then 1 else 0 := by
  rcases hr : s.free_cash_flow with _ | fcf <;> simp only [fcfSignal, qtruthy, hr] <;>
    split_ifs <;> simp_all [bne_iff_ne]

lemma shortSignal_le (s : StockData) :
    (shortSignal s).1 + (shortSignal s).2.1 + (shortSignal s).2.2 ≤
      if qtruthy s.short_interest then 1 else 0 := by
  rcases hr : s.short_interest with _ | si <;> simp only [shortSignal, qtruthy, hr] <;>
    split_ifs <;> simp_all [bne_iff_ne]

lemma insiderSignal_le (s : StockData) :
    (insiderSignal s).1 + (insiderSignal s).2.1 + (insiderSignal s).2.2 ≤
      if s.insider_activity ≠ [] then 1 else 0 := by
  by_cases h : s.insider_activity = []
  · simp [insiderSignal, h]
  · simp only [insiderSignal, h]
    split_ifs <;> simp

lemma oneYearSignal_le (s : StockData) :
    (oneYearSignal s).1 + (oneYearSignal s).2.1 + (oneYearSignal s).2.2 ≤
      if qtruthy s.one_year_return then 1 else 0 := by
  rcases hr : s.one_year_return with _ | r <;> simp only [oneYearSignal, qtruthy, hr] <;>
    split_ifs <;> simp_all [bne_iff_ne]

end ReportGenerator

/-- Counterexample for C4: a snapshot whose only available metric is a 1-year
return of 10% (truthy, strictly between −30 and 20): `_count_signals` adds it
to no bucket, so bullish + bearish + neutral = 0 while the number of
available metrics is 1 — the claimed equality fails. -/
theorem countSignals_counterexample :
    ¬ ((ReportGenerator.countSignals snapOneYearOnly).1 +
        (ReportGenerator.countSignals snapOneYearOnly).2.1 +
        (ReportGenerator.countSignals snapOneYearOnly).2.2 =
       ReportGenerator.specAvailableMetrics snapOneYearOnly) := by
  norm_num [ReportGenerator.countSignals, ReportGenerator.rsiSignal,
    ReportGenerator.peSignal, ReportGenerator.pegSignal, ReportGenerator.debtSignal,
    ReportGenerator.fcfSignal, ReportGenerator.shortSignal, ReportGenerator.insiderSignal,
    ReportGenerator.oneYearSignal, ReportGenerator.specAvailableMetrics, qtruthy,
    snapOneYearOnly]

/-- Claim C4 as amended: each available metric of the fixed eight-metric set adds to
at most one bucket (the 1-year-return metric with a value in `(−30, 20]` and
a balanced insider record add to none), and unavailable metrics add to no
bucket; hence bullish + bearish + neutral is at most the number of available
metrics. -/
theorem countSignals_le_available (s : StockData) :
    (ReportGenerator.countSignals s).1 + (ReportGenerator.countSignals s).2.1 +
      (ReportGenerator.countSignals s).2.2 ≤ ReportGenerator.specAvailableMetrics s := by
  have h1 := ReportGenerator.rsiSignal_le s
  have h2 := ReportGenerator.peSignal_le s
  have h3 := ReportGenerator.pegSignal_le s
  have h4 := ReportGenerator.debtSignal_le s
  have h5 := ReportGenerator.fcfSignal_le s
  have h6 := ReportGenerator.shortSignal_le s
  have h7 := ReportGenerator.insiderSignal_le s
  have h8 := ReportGenerator.oneYearSignal_le s
  simp only [ReportGenerator.countSignals, List.foldr_cons, List.foldr_nil,
    ReportGenerator.specAvailableMetrics] at *
  omega

/-- Claim C9 at its failing input (code bug): `_generate_buy_case` never returns a string: for every
input — here the bare snapshot with every optional field absent — line 357
reads `stock.three_month_return`, an attribute the `StockData` dataclass does
not define, and the call raises `AttributeError` instead of producing the
fallback sentence. -/
theorem generateBuyCase_attribute_error :
    ReportGenerator.generateBuyCase snapBare 0 0 =
      Except.error "AttributeError: StockData object has no attribute three_month_return" :=
  rfl

/-- Claim C7 at its failing input (code bug): for a snapshot with earnings 3 days out and a truthy
1-year return, `_generate_risk_factors` raises `AttributeError` at line 422
(reading the undefined `three_month_return` attribute) instead of returning a
list headed by the severity-95 earnings-proximity warning. -/
theorem generateRiskFactors_attribute_error :
    ReportGenerator.generateRiskFactors snapEarningsSoon =
      Except.error "AttributeError: StockData object has no attribute three_month_return" :=
  rfl

/-- Claim C6 at its failing input (code bug): with a zero (falsy) current price and an analyst target
present, the upside rules themselves are skipped as claimed: the score bonus
is 0, no buy-case candidate is generated, `_calculate_score` evaluates
without any division, and `_generate_risk_factors` returns its fallback
normally — but `_generate_buy_case` still raises `AttributeError` on the
undefined `three_month_return` attribute, so "no exception is raised" fails. -/
theorem zeroPrice_upside_guard :
    ReportGenerator.upsideBonus snapZeroPrice = 0 ∧
    ReportGenerator.calculateScore snapZeroPrice 0 0 = 0 ∧
    ReportGenerator.buyCaseCandidates snapZeroPrice = [] ∧
    (ReportGenerator.generateRiskFactors snapZeroPrice).isOk = true ∧
    ReportGenerator.generateBuyCase snapZeroPrice 0 0 =
      Except.error "AttributeError: StockData object has no attribute three_month_return" := by
  refine ⟨rfl, ?_, rfl, rfl, rfl⟩
  norm_num [ReportGenerator.calculateScore, ReportGenerator.athBonus,
    ReportGenerator.mentionsBonus, ReportGenerator.sentimentBonus,
    ReportGenerator.rsiBonus, ReportGenerator.peBonus, ReportGenerator.pegBonus,
    ReportGenerator.debtBonus, ReportGenerator.fcfBonus, ReportGenerator.insiderBonus,
    ReportGenerator.upsideBonus, round2, snapZeroPrice]

/-! ## Structural lemmas for the stable sort -/

lemma insertDescBy_perm {α β : Type} [LinearOrder β] (key : α → β) (x : α) (l : List α) :
    (insertDescBy key x l).Perm (x :: l) := by
  induction l with
  | nil => exact List.Perm.refl _
  | cons y ys ih =>
    unfold insertDescBy
    split_ifs
    · exact List.Perm.refl _
    · exact (List.Perm.cons y ih).trans (List.Perm.swap x y ys)

lemma sortDescBy_perm {α β : Type} [LinearOrder β] (key : α → β) (l : List α) :
    (sortDescBy key l).Perm l := by
  induction l with
  | nil => exact List.Perm.refl _
  | cons y ys ih =>
    exact (insertDescBy_perm key y (sortDescBy key ys)).trans (List.Perm.cons y ih)

lemma insertDescBy_sorted {α β : Type} [LinearOrder β] (key : α → β) (x : α)
    (l : List α) (h : l.Sorted (fun a b => key b ≤ key a)) :
    (insertDescBy key x l).Sorted (fun a b => key b ≤ key a) := by
  induction l with
  | nil => simp [insertDescBy]
  | cons y ys ih =>
    rw [List.sorted_cons] at h
    unfold insertDescBy
    split_ifs with hxy
    · rw [List.sorted_cons]
      refine ⟨?_, List.sorted_cons.mpr h⟩
      intro b hb
      rcases List.mem_cons.mp hb with hb1 | hb1
      · subst hb1; exact hxy
      · exact le_trans (h.1 b hb1) hxy
    · rw [List.sorted_cons]
      refine ⟨?_, ih h.2⟩
      intro b hb
      have hb2 : b ∈ x :: ys := (insertDescBy_perm key x ys).mem_iff.mp hb
      rcases List.mem_cons.mp hb2 with hb3 | hb3
      · subst hb3
        exact le_of_not_le hxy
      · exact h.1 b hb3

lemma sortDescBy_sorted {α β : Type} [LinearOrder β] (key : α → β) (l : List α) :
    (sortDescBy key l).Sorted (fun a b => key b ≤ key a) := by
  induction l with
  | nil => simp [sortDescBy]
  | cons y ys ih => exact insertDescBy_sorted key y _ ih

/-- Two permuted lists with pairwise-distinct keys have the same stable
descending sort. -/
lemma sortDescBy_eq_of_perm {α β : Type} [LinearOrder β] (key : α → β)
    (l₁ l₂ : List α) (hperm : l₁.Perm l₂)
    (hdist : l₁.Pairwise (fun a b => key a ≠ key b)) :
    sortDescBy key l₁ = sortDescBy key l₂ := by
  haveI : IsAntisymm α (fun a b => key b < key a) :=
    ⟨fun a b h1 h2 => absurd (lt_trans h1 h2) (lt_irrefl _)⟩
  have hp : (sortDescBy key l₁).Perm (sortDescBy key l₂) :=
    ((sortDescBy_perm key l₁).trans hperm).trans (sortDescBy_perm key l₂).symm
  have hd1 : (sortDescBy key l₁).Pairwise (fun a b => key a ≠ key b) :=
    ((sortDescBy_perm key l₁).pairwise_iff (fun h => h.symm)).mpr hdist
  have hd2 : (sortDescBy key l₂).Pairwise (fun a b => key a ≠ key b) :=
    (hp.pairwise_iff (fun h => h.symm)).mp hd1
  have hs1 : (sortDescBy key l₁).Sorted (fun a b => key b < key a) :=
    ((sortDescBy_sorted key l₁).and hd1).imp (fun h => lt_of_le_of_ne h.1 h.2.symm)
  have hs2 : (sortDescBy key l₂).Sorted (fun a b => key b < key a) :=
    ((sortDescBy_sorted key l₂).and hd2).imp (fun h => lt_of_le_of_ne h.1 h.2.symm)
  exact List.eq_of_perm_of_sorted hp hs1 hs2

namespace ReportGenerator

/-! ## Structural lemmas for the dark-horse pass -/

lemma updateDarkHorse_score (s : AnalyzedStock) :
    (updateDarkHorse s).score = s.score := by
  unfold updateDarkHorse; split_ifs <;> rfl

lemma qualifies_updateDarkHorse (s : AnalyzedStock) :
    qualifiesDarkHorse (updateDarkHorse s) ↔ qualifiesDarkHorse s := by
  unfold updateDarkHorse; split_ifs <;> exact Iff.rfl

lemma updateDarkHorse_flag_iff (s : AnalyzedStock) (h : s.is_dark_horse = false) :
    ((updateDarkHorse s).is_dark_horse = true ↔ qualifiesDarkHorse s) := by
  unfold updateDarkHorse
  split_ifs with hq
  · simpa using hq
  · simpa [h] using hq

lemma identifyDarkHorses_fst (l : List AnalyzedStock) :
    (identifyDarkHorses l).1 = l.map updateDarkHorse := by
  induction l with
  | nil => rfl
  | cons s rest ih =>
    unfold identifyDarkHorses
    split_ifs with hq
    · simp [ih]
    · simp only [List.map_cons, ih]
      congr 1
      unfold updateDarkHorse
      rw [if_neg hq]

lemma identifyDarkHorses_snd (l : List AnalyzedStock) :
    (identifyDarkHorses l).2 =
      (l.map updateDarkHorse).filter (fun s => decide (qualifiesDarkHorse s)) := by
  induction l with
  | nil => rfl
  | cons s rest ih =>
    unfold identifyDarkHorses
    split_ifs with hq
    · have : decide (qualifiesDarkHorse (updateDarkHorse s)) = true := by
        simp [qualifies_updateDarkHorse, hq]
      simp [ih, this]
    · have h1 : updateDarkHorse s = s := by unfold updateDarkHorse; rw [if_neg hq]
      have : decide (qualifiesDarkHorse (updateDarkHorse s)) = false := by
        simp [qualifies_updateDarkHorse, hq]
      simp [ih, this]

lemma mem_identifyDarkHorses_snd_flag (l : List AnalyzedStock) (s : AnalyzedStock)
    (hs : s ∈ (identifyDarkHorses l).2) : s.is_dark_horse = true := by
  rw [identifyDarkHorses_snd] at hs
  obtain ⟨hmem, hq⟩ := List.mem_filter.mp hs
  obtain ⟨t, _, rfl⟩ := List.mem_map.mp hmem
  have hq' : qualifiesDarkHorse t := by
    have := of_decide_eq_true hq
    exact (qualifies_updateDarkHorse t).mp this
  unfold updateDarkHorse
  rw [if_pos hq']

lemma identifyDarkHorses_snd_nil (l : List AnalyzedStock)
    (hnil : (identifyDarkHorses l).2 = []) : (identifyDarkHorses l).1 = l := by
  have hq : ∀ a ∈ l.map updateDarkHorse, ¬ (decide (qualifiesDarkHorse a) = true) := by
    apply List.filter_eq_nil_iff.mp
    rw [← identifyDarkHorses_snd]
    exact hnil
  rw [identifyDarkHorses_fst]
  have hid : ∀ a ∈ l, updateDarkHorse a = a := by
    intro a ha
    have h1 := hq (updateDarkHorse a) (List.mem_map_of_mem updateDarkHorse ha)
    have h2 : ¬ qualifiesDarkHorse a := by
      intro hcon
      exact h1 (by simp [qualifies_updateDarkHorse, hcon])
    unfold updateDarkHorse
    rw [if_neg h2]
  calc l.map updateDarkHorse = l.map id := List.map_congr_left hid
    _ = l := List.map_id l

/-- Under the pipeline precondition that no input stock is pre-flagged, the
dark-horse list is the flagged subsequence of the updated list, in order. -/
lemma identifyDarkHorses_snd_eq_filter (l : List AnalyzedStock)
    (hflag : ∀ s ∈ l, s.is_dark_horse = false) :
    (identifyDarkHorses l).2 =
      (identifyDarkHorses l).1.filter (fun s => s.is_dark_horse) := by
  rw [identifyDarkHorses_snd, identifyDarkHorses_fst]
  apply List.filter_congr
  intro u hu
  obtain ⟨t, ht, rfl⟩ := List.mem_map.mp hu
  have hft := hflag t ht
  by_cases hq : qualifiesDarkHorse t
  · have h1 : decide (qualifiesDarkHorse (updateDarkHorse t)) = true := by
      simp [qualifies_updateDarkHorse, hq]
    have h2 : (updateDarkHorse t).is_dark_horse = true :=
      (updateDarkHorse_flag_iff t hft).mpr hq
    rw [h1, h2]
  · have h1 : decide (qualifiesDarkHorse (updateDarkHorse t)) = false := by
      simp [qualifies_updateDarkHorse, hq]
    have h3 : updateDarkHorse t = t := by unfold updateDarkHorse; rw [if_neg hq]
    rw [h1, h3, hft]

/-! ## Structural lemmas for rank assignment -/

lemma assignRanksFrom_length (n : ℕ) (l : List AnalyzedStock) :
    (assignRanksFrom n l).length = l.length := by
  induction l generalizing n with
  | nil => rfl
  | cons s rest ih => simp [assignRanksFrom, ih]

lemma assignRanksFrom_map_fst (n : ℕ) (l : List AnalyzedStock) :
    (assignRanksFrom n l).map Prod.fst = List.range' n l.length := by
  induction l generalizing n with
  | nil => rfl
  | cons s rest ih => simp [assignRanksFrom, List.range'_succ, ih]

lemma assignRanksFrom_map_snd (n : ℕ) (l : List AnalyzedStock) :
    (assignRanksFrom n l).map Prod.snd = l := by
  induction l generalizing n with
  | nil => rfl
  | cons s rest ih => simp [assignRanksFrom, ih]

lemma assignRanksFrom_append (n : ℕ) (l₁ l₂ : List AnalyzedStock) :
    assignRanksFrom n (l₁ ++ l₂) =
      assignRanksFrom n l₁ ++ assignRanksFrom (n + l₁.length) l₂ := by
  induction l₁ generalizing n with
  | nil => simp [assignRanksFrom]
  | cons s rest ih =>
    have hn : n + (rest.length + 1) = (n + 1) + rest.length := by omega
    simp only [List.cons_append, assignRanksFrom, List.length_cons, List.append_eq,
      ih, hn]

lemma mem_assignRanksFrom_snd (n : ℕ) (l : List AnalyzedStock)
    (p : ℕ × AnalyzedStock) (hp : p ∈ assignRanksFrom n l) : p.2 ∈ l := by
  have := List.mem_map_of_mem Prod.snd hp
  rwa [assignRanksFrom_map_snd] at this

end ReportGenerator

namespace ReportGenerator

/-- `analyzeAndRank` is the rank assembly of the analyzed list. -/
lemma analyzeAndRank_eq (entries : List (String × StockData × ℕ × ℚ)) :
    analyzeAndRank entries = rankAssembly (analyzedOf entries) := rfl

end ReportGenerator

/-- Claim C2: when no input stock is pre-flagged (as in every pipeline run, where
`AnalyzedStock` is created with `is_dark_horse=False`), a stock emerges from
`_identify_dark_horses` flagged if and only if it accumulates at least 2
reason strings from the four checks and its composite score strictly exceeds
the floor 50; in particular any stock with fewer than 2 reasons stays
unflagged, and the pass changes the score of no stock. -/
theorem darkHorse_gating (l : List AnalyzedStock)
    (hflag : ∀ s ∈ l, s.is_dark_horse = false) :
    (∀ s ∈ (ReportGenerator.identifyDarkHorses l).1,
        (s.is_dark_horse = true ↔
          2 ≤ (ReportGenerator.darkHorseReasons s).length ∧ 50 < s.score)) ∧
    (ReportGenerator.identifyDarkHorses l).1.map (fun s => s.score) =
      l.map (fun s => s.score) := by
  constructor
  · rw [ReportGenerator.identifyDarkHorses_fst]
    intro u hu
    obtain ⟨t, ht, rfl⟩ := List.mem_map.mp hu
    have hft := hflag t ht
    have h1 := ReportGenerator.updateDarkHorse_flag_iff t hft
    have h2 := ReportGenerator.qualifies_updateDarkHorse t
    exact h1.trans h2.symm
  · rw [ReportGenerator.identifyDarkHorses_fst, List.map_map]
    apply List.map_congr_left
    intro a _
    exact ReportGenerator.updateDarkHorse_score a

/-- Witness for C2: the gating theorem applied to a concrete unflagged input. -/
theorem darkHorse_gating_witness :
    (∀ s ∈ darkInput, s.is_dark_horse = false) ∧
    ((∀ s ∈ (ReportGenerator.identifyDarkHorses darkInput).1,
        (s.is_dark_horse = true ↔
          2 ≤ (ReportGenerator.darkHorseReasons s).length ∧ 50 < s.score)) ∧
    (ReportGenerator.identifyDarkHorses darkInput).1.map (fun s => s.score) =
      darkInput.map (fun s => s.score)) :=
  ⟨by simp [darkInput, mkDark],
   darkHorse_gating darkInput (by simp [darkInput, mkDark])⟩

/-- Counterexample for C3: three dark-horse qualifiers arrive in input order
with scores 60, 70, 80.  The dark-horse list keeps the pre-sort input order
(the in-place score sort of `analyzed_stocks` does not reorder the separate
`dark_horses` list built before it), so `dark_horses[:DARK_HORSE_COUNT]`
picks the scores 60 and 70 — the report consists exactly of two dark-horse
entries with scores 60 and 70, while a dark-horse-flagged stock with score
80 is excluded, contradicting the claimed descending-score selection. -/
theorem darkHorse_order_counterexample :
    (ReportGenerator.identifyDarkHorses darkInput).2.map (fun s => s.score) =
      [60, 70, 80] ∧
    (ReportGenerator.rankAssembly darkInput).map (fun p => p.2.score) = [60, 70] ∧
    (∀ p ∈ ReportGenerator.rankAssembly darkInput, p.2.is_dark_horse = true) := by
  refine ⟨?_, ?_, ?_⟩ <;>
    norm_num [ReportGenerator.rankAssembly, ReportGenerator.identifyDarkHorses,
      ReportGenerator.qualifiesDarkHorse, ReportGenerator.darkHorseReasons,
      ReportGenerator.updateDarkHorse, darkInput, mkDark, sortDescBy, insertDescBy,
      ReportGenerator.assignRanks, ReportGenerator.assignRanksFrom,
      TOP_STOCKS_COUNT, DARK_HORSE_COUNT, DARK_HORSE_MAX_MENTIONS]

/-- Claim C3 as amended: the dark-horse picks appended at the tail of the report are
the first `DARK_HORSE_COUNT` dark-horse-flagged stocks in the original input
order of the analyzed list (the order before the descending-score sort), not
the highest-scoring ones; the main-pick prefix is unchanged. -/
theorem darkHorse_picks_input_order (analyzed : List AnalyzedStock)
    (hflag : ∀ s ∈ analyzed, s.is_dark_horse = false) :
    (ReportGenerator.rankAssembly analyzed).map Prod.snd =
      ((sortDescBy (fun s => s.score)
          (ReportGenerator.identifyDarkHorses analyzed).1).filter
          (fun s => !s.is_dark_horse)).take (TOP_STOCKS_COUNT - DARK_HORSE_COUNT) ++
      ((ReportGenerator.identifyDarkHorses analyzed).1.filter
          (fun s => s.is_dark_horse)).take DARK_HORSE_COUNT := by
  have h := ReportGenerator.identifyDarkHorses_snd_eq_filter analyzed hflag
  simp only [ReportGenerator.rankAssembly, ReportGenerator.assignRanks]
  rw [ReportGenerator.assignRanksFrom_map_snd, h]

/-- Witness for the amended C3: the input-order selection applied to the concrete
three-qualifier input. -/
theorem darkHorse_picks_input_order_witness :
    (∀ s ∈ darkInput, s.is_dark_horse = false) ∧
    (ReportGenerator.rankAssembly darkInput).map Prod.snd =
      ((sortDescBy (fun s => s.score)
          (ReportGenerator.identifyDarkHorses darkInput).1).filter
          (fun s => !s.is_dark_horse)).take (TOP_STOCKS_COUNT - DARK_HORSE_COUNT) ++
      ((ReportGenerator.identifyDarkHorses darkInput).1.filter
          (fun s => s.is_dark_horse)).take DARK_HORSE_COUNT :=
  ⟨by simp [darkInput, mkDark],
   darkHorse_picks_input_order darkInput (by simp [darkInput, mkDark])⟩

namespace ReportGenerator

/-- Rank-invariant core: any concatenation of an unflagged block and a
flagged block of length at most `DARK_HORSE_COUNT`, once ranks are attached,
satisfies the report invariant. -/
lemma rankedInvariant_parts (main dark : List AnalyzedStock)
    (hmainflag : ∀ s ∈ main, s.is_dark_horse = false)
    (hdarkflag : ∀ s ∈ dark, s.is_dark_horse = true)
    (hdlen : dark.length ≤ DARK_HORSE_COUNT)
    (hne : main ++ dark ≠ []) :
    ((assignRanksFrom 1 (main ++ dark)).map Prod.fst =
        List.range' 1 (assignRanksFrom 1 (main ++ dark)).length) ∧
    assignRanksFrom 1 (main ++ dark) ≠ [] ∧
    ∃ k ≤ DARK_HORSE_COUNT,
      (∀ p ∈ (assignRanksFrom 1 (main ++ dark)).take
          ((assignRanksFrom 1 (main ++ dark)).length - k), p.2.is_dark_horse = false) ∧
      (∀ q ∈ (assignRanksFrom 1 (main ++ dark)).drop
          ((assignRanksFrom 1 (main ++ dark)).length - k), q.2.is_dark_horse = true) ∧
      (∀ p ∈ (assignRanksFrom 1 (main ++ dark)).take
          ((assignRanksFrom 1 (main ++ dark)).length - k),
        ∀ q ∈ (assignRanksFrom 1 (main ++ dark)).drop
          ((assignRanksFrom 1 (main ++ dark)).length - k), p.2 ≠ q.2) := by
  have hlen : (assignRanksFrom 1 (main ++ dark)).length = main.length + dark.length := by
    rw [assignRanksFrom_length, List.length_append]
  have hsplit : assignRanksFrom 1 (main ++ dark) =
      assignRanksFrom 1 main ++ assignRanksFrom (1 + main.length) dark :=
    assignRanksFrom_append 1 main dark
  have hlenm : (assignRanksFrom 1 main).length = main.length := assignRanksFrom_length 1 main
  have hsub : main.length + dark.length - dark.length = main.length := by omega
  have htake : (assignRanksFrom 1 (main ++ dark)).take
      ((assignRanksFrom 1 (main ++ dark)).length - dark.length) = assignRanksFrom 1 main := by
    rw [hlen, hsub, hsplit, List.take_left' hlenm]
  have hdrop : (assignRanksFrom 1 (main ++ dark)).drop
      ((assignRanksFrom 1 (main ++ dark)).length - dark.length) =
      assignRanksFrom (1 + main.length) dark := by
    rw [hlen, hsub, hsplit, List.drop_left' hlenm]
  have hTake : ∀ p ∈ (assignRanksFrom 1 (main ++ dark)).take
      ((assignRanksFrom 1 (main ++ dark)).length - dark.length), p.2.is_dark_horse = false := by
    intro p hp
    rw [htake] at hp
    exact hmainflag p.2 (mem_assignRanksFrom_snd _ _ _ hp)
  have hDrop : ∀ q ∈ (assignRanksFrom 1 (main ++ dark)).drop
      ((assignRanksFrom 1 (main ++ dark)).length - dark.length), q.2.is_dark_horse = true := by
    intro q hq
    rw [hdrop] at hq
    exact hdarkflag q.2 (mem_assignRanksFrom_snd _ _ _ hq)
  refine ⟨?_, ?_, dark.length, hdlen, hTake, hDrop, ?_⟩
  · rw [assignRanksFrom_map_fst, assignRanksFrom_length]
  · intro hcon
    apply hne
    have hl0 : (main ++ dark).length = 0 := by
      rw [← assignRanksFrom_length 1 (main ++ dark), hcon]
      rfl
    exact List.length_eq_zero.mp hl0
  · intro p hp q hq heq
    have f1 := hTake p hp
    have f2 := hDrop q hq
    rw [heq] at f1
    rw [f1] at f2
    exact Bool.false_ne_true f2

end ReportGenerator

/-- Claim C1: for every run in which at least one `AnalyzedStock` survives
filtering (a nonempty analyzed list, with flags initially unset as the
dataclass default guarantees), the final report list has ranks assigned
contiguously 1..N, is nonempty, keeps every dark-horse-flagged entry in a
trailing block of at most `DARK_HORSE_COUNT` positions with every preceding
main-pick entry unflagged, and the two groups share no entry. -/
theorem rank_assembly_invariant (analyzed : List AnalyzedStock)
    (hne : analyzed ≠ []) (hflag : ∀ s ∈ analyzed, s.is_dark_horse = false) :
    RankedReportInvariant analyzed := by
  have hmainflag : ∀ s ∈ ((sortDescBy (fun s => s.score)
      (ReportGenerator.identifyDarkHorses analyzed).1).filter
      (fun s => !s.is_dark_horse)).take (TOP_STOCKS_COUNT - DARK_HORSE_COUNT),
      s.is_dark_horse = false := by
    intro s hs
    have hs1 := List.mem_of_mem_take hs
    have hs2 := List.of_mem_filter hs1
    simpa using hs2
  have hdarkflag : ∀ s ∈ (ReportGenerator.identifyDarkHorses analyzed).2.take
      DARK_HORSE_COUNT, s.is_dark_horse = true := by
    intro s hs
    exact ReportGenerator.mem_identifyDarkHorses_snd_flag analyzed s
      (List.take_subset _ _ hs)
  have hdlen : ((ReportGenerator.identifyDarkHorses analyzed).2.take
      DARK_HORSE_COUNT).length ≤ DARK_HORSE_COUNT := by
    rw [List.length_take]
    exact min_le_left _ _
  have hne2 : (((sortDescBy (fun s => s.score)
      (ReportGenerator.identifyDarkHorses analyzed).1).filter
      (fun s => !s.is_dark_horse)).take (TOP_STOCKS_COUNT - DARK_HORSE_COUNT)) ++
      ((ReportGenerator.identifyDarkHorses analyzed).2.take DARK_HORSE_COUNT) ≠ [] := by
    by_cases hd0 : (ReportGenerator.identifyDarkHorses analyzed).2 = []
    · have hu : (ReportGenerator.identifyDarkHorses analyzed).1 = analyzed :=
        ReportGenerator.identifyDarkHorses_snd_nil analyzed hd0
      have hfe : (sortDescBy (fun s => s.score)
          (ReportGenerator.identifyDarkHorses analyzed).1).filter
          (fun s => !s.is_dark_horse) =
          sortDescBy (fun s => s.score) (ReportGenerator.identifyDarkHorses analyzed).1 := by
        apply List.filter_eq_self.mpr
        intro s hs
        have hm : s ∈ analyzed := by
          rw [← hu]
          exact (sortDescBy_perm _ _).subset hs
        simp [hflag s hm]
      intro hcon
      have h1 := (List.append_eq_nil.mp hcon).1
      rw [hfe] at h1
      rcases List.take_eq_nil_iff.mp h1 with h2 | h2
      · simp [TOP_STOCKS_COUNT, DARK_HORSE_COUNT] at h2
      · have h3 : (ReportGenerator.identifyDarkHorses analyzed).1 = [] := by
          have h4 := (sortDescBy_perm (fun (s : AnalyzedStock) => s.score)
            (ReportGenerator.identifyDarkHorses analyzed).1).symm
          rw [h2] at h4
          exact List.Perm.eq_nil h4
        rw [hu] at h3
        exact hne h3
    · intro hcon
      have h1 := (List.append_eq_nil.mp hcon).2
      rcases List.take_eq_nil_iff.mp h1 with h2 | h2
      · simp [DARK_HORSE_COUNT] at h2
      · exact hd0 h2
  exact ReportGenerator.rankedInvariant_parts _ _ hmainflag hdarkflag hdlen hne2

/-- Witness for C1: the invariant holds for a concrete one-stock run. -/
theorem rank_assembly_invariant_witness :
    ([plainStock "A"] ≠ [] ∧ ∀ s ∈ [plainStock "A"], s.is_dark_horse = false) ∧
    RankedReportInvariant [plainStock "A"] :=
  ⟨⟨by simp, by simp [plainStock]⟩,
   rank_assembly_invariant [plainStock "A"] (by simp) (by simp [plainStock])⟩

/-- Permuted lists of length at most one are equal. -/
lemma perm_eq_of_length_le_one {α : Type} {l l₂ : List α}
    (h : l.Perm l₂) (hl : l.length ≤ 1) : l = l₂ := by
  cases l with
  | nil => exact (List.Perm.eq_nil h.symm).symm
  | cons a rest =>
    cases rest with
    | nil => exact (List.perm_singleton.mp h.symm).symm
    | cons b r2 => simp at hl

/-- Counterexample for C8: two valid snapshots with equal composite score 0:
run in the order (AAA, BBB) the report ranks AAA first; run on the permuted
order (BBB, AAA) it ranks BBB first.  The stable sort preserves input order
among equal scores, so permuting the iteration order of the input map changes the
final ranked output. -/
theorem pipeline_permutation_counterexample :
    ([entryB, entryA].Perm [entryA, entryB]) ∧
    (ReportGenerator.analyzeAndRank [entryA, entryB]).map (fun p => (p.1, p.2.ticker)) =
      [(1, "AAA"), (2, "BBB")] ∧
    (ReportGenerator.analyzeAndRank [entryB, entryA]).map (fun p => (p.1, p.2.ticker)) =
      [(1, "BBB"), (2, "AAA")] ∧
    ReportGenerator.analyzeAndRank [entryA, entryB] ≠
      ReportGenerator.analyzeAndRank [entryB, entryA] := by
  have h2 : (ReportGenerator.analyzeAndRank [entryA, entryB]).map
      (fun p => (p.1, p.2.ticker)) = [(1, "AAA"), (2, "BBB")] := by
    norm_num [ReportGenerator.analyzeAndRank, ReportGenerator.rankAssembly,
      ReportGenerator.analyzeStock, ReportGenerator.identifyDarkHorses,
      ReportGenerator.qualifiesDarkHorse, ReportGenerator.darkHorseReasons,
      ReportGenerator.updateDarkHorse, ReportGenerator.assignRanks,
      ReportGenerator.assignRanksFrom, sortDescBy, insertDescBy,
      ReportGenerator.calculateScore, ReportGenerator.athBonus,
      ReportGenerator.mentionsBonus, ReportGenerator.sentimentBonus,
      ReportGenerator.rsiBonus, ReportGenerator.peBonus, ReportGenerator.pegBonus,
      ReportGenerator.debtBonus, ReportGenerator.fcfBonus,
      ReportGenerator.insiderBonus, ReportGenerator.upsideBonus, round2,
      ReportGenerator.countSignals, ReportGenerator.rsiSignal,
      ReportGenerator.peSignal, ReportGenerator.pegSignal, ReportGenerator.debtSignal,
      ReportGenerator.fcfSignal, ReportGenerator.shortSignal,
      ReportGenerator.insiderSignal, ReportGenerator.oneYearSignal,
      entryA, entryB, TOP_STOCKS_COUNT, DARK_HORSE_COUNT, DARK_HORSE_MAX_MENTIONS]
  have h3 : (ReportGenerator.analyzeAndRank [entryB, entryA]).map
      (fun p => (p.1, p.2.ticker)) = [(1, "BBB"), (2, "AAA")] := by
    norm_num [ReportGenerator.analyzeAndRank, ReportGenerator.rankAssembly,
      ReportGenerator.analyzeStock, ReportGenerator.identifyDarkHorses,
      ReportGenerator.qualifiesDarkHorse, ReportGenerator.darkHorseReasons,
      ReportGenerator.updateDarkHorse, ReportGenerator.assignRanks,
      ReportGenerator.assignRanksFrom, sortDescBy, insertDescBy,
      ReportGenerator.calculateScore, ReportGenerator.athBonus,
      ReportGenerator.mentionsBonus, ReportGenerator.sentimentBonus,
      ReportGenerator.rsiBonus, ReportGenerator.peBonus, ReportGenerator.pegBonus,
      ReportGenerator.debtBonus, ReportGenerator.fcfBonus,
      ReportGenerator.insiderBonus, ReportGenerator.upsideBonus, round2,
      ReportGenerator.countSignals, ReportGenerator.rsiSignal,
      ReportGenerator.peSignal, ReportGenerator.pegSignal, ReportGenerator.debtSignal,
      ReportGenerator.fcfSignal, ReportGenerator.shortSignal,
      ReportGenerator.insiderSignal, ReportGenerator.oneYearSignal,
      entryA, entryB, TOP_STOCKS_COUNT, DARK_HORSE_COUNT, DARK_HORSE_MAX_MENTIONS]
  refine ⟨List.Perm.swap entryA entryB [], h2, h3, ?_⟩
  intro h
  have h4 := congrArg (List.map (fun (p : ℕ × AnalyzedStock) => (p.1, p.2.ticker))) h
  rw [h2, h3] at h4
  have : ((1, "AAA") : ℕ × String) = (1, "BBB") := by
    injection h4 with h5 h6
  simp at this

/-- Claim C8 as amended: the pipeline output is invariant under permutations of the
input when (a) the analyzed stocks have pairwise-distinct composite scores
(the stable sort then has a unique result) and (b) at most one stock
qualifies as a dark horse (the dark-horse tail otherwise follows input
order).  Without these hypotheses the counterexample above applies. -/
theorem pipeline_permutation_invariant (l₁ l₂ : List (String × StockData × ℕ × ℚ))
    (hperm : l₁.Perm l₂)
    (hdist : (ReportGenerator.analyzedOf l₁).Pairwise (fun a b => a.score ≠ b.score))
    (hdh : (ReportGenerator.identifyDarkHorses
      (ReportGenerator.analyzedOf l₁)).2.length ≤ 1) :
    ReportGenerator.analyzeAndRank l₁ = ReportGenerator.analyzeAndRank l₂ := by
  have hA : (ReportGenerator.analyzedOf l₁).Perm (ReportGenerator.analyzedOf l₂) :=
    (hperm.filter _).map _
  have hfst : (ReportGenerator.identifyDarkHorses (ReportGenerator.analyzedOf l₁)).1.Perm
      (ReportGenerator.identifyDarkHorses (ReportGenerator.analyzedOf l₂)).1 := by
    rw [ReportGenerator.identifyDarkHorses_fst, ReportGenerator.identifyDarkHorses_fst]
    exact hA.map _
  have hdist1 : (ReportGenerator.identifyDarkHorses
      (ReportGenerator.analyzedOf l₁)).1.Pairwise (fun a b => a.score ≠ b.score) := by
    rw [ReportGenerator.identifyDarkHorses_fst, List.pairwise_map]
    refine hdist.imp ?_
    intro a b hab
    rw [ReportGenerator.updateDarkHorse_score, ReportGenerator.updateDarkHorse_score]
    exact hab
  have hsort : sortDescBy (fun s => s.score)
      (ReportGenerator.identifyDarkHorses (ReportGenerator.analyzedOf l₁)).1 =
      sortDescBy (fun s => s.score)
      (ReportGenerator.identifyDarkHorses (ReportGenerator.analyzedOf l₂)).1 :=
    sortDescBy_eq_of_perm _ _ _ hfst hdist1
  have hsndperm : (ReportGenerator.identifyDarkHorses
      (ReportGenerator.analyzedOf l₁)).2.Perm
      (ReportGenerator.identifyDarkHorses (ReportGenerator.analyzedOf l₂)).2 := by
    rw [ReportGenerator.identifyDarkHorses_snd, ReportGenerator.identifyDarkHorses_snd]
    exact (hA.map _).filter _
  have hsnd : (ReportGenerator.identifyDarkHorses (ReportGenerator.analyzedOf l₁)).2 =
      (ReportGenerator.identifyDarkHorses (ReportGenerator.analyzedOf l₂)).2 :=
    perm_eq_of_length_le_one hsndperm hdh
  rw [ReportGenerator.analyzeAndRank_eq, ReportGenerator.analyzeAndRank_eq]
  simp only [ReportGenerator.rankAssembly]
  rw [hsort, hsnd]

/-- Witness for the amended C8: two valid snapshots with distinct scores (0 and 25)
and no dark-horse qualifier; the ranked output is the same for both input
orders. -/
theorem pipeline_permutation_invariant_witness :
    ([entryA, entryC].Perm [entryC, entryA]) ∧
    (ReportGenerator.analyzedOf [entryA, entryC]).Pairwise
      (fun a b => a.score ≠ b.score) ∧
    (ReportGenerator.identifyDarkHorses
      (ReportGenerator.analyzedOf [entryA, entryC])).2.length ≤ 1 ∧
    ReportGenerator.analyzeAndRank [entryA, entryC] =
      ReportGenerator.analyzeAndRank [entryC, entryA] := by
  have hp : [entryA, entryC].Perm [entryC, entryA] := List.Perm.swap entryC entryA []
  have hd : (ReportGenerator.analyzedOf [entryA, entryC]).Pairwise
      (fun a b => a.score ≠ b.score) := by
    norm_num [ReportGenerator.analyzedOf, ReportGenerator.analyzeStock,
      ReportGenerator.calculateScore, ReportGenerator.athBonus,
      ReportGenerator.mentionsBonus, ReportGenerator.sentimentBonus,
      ReportGenerator.rsiBonus, ReportGenerator.peBonus, ReportGenerator.pegBonus,
      ReportGenerator.debtBonus, ReportGenerator.fcfBonus,
      ReportGenerator.insiderBonus, ReportGenerator.upsideBonus, round2,
      ReportGenerator.countSignals, ReportGenerator.rsiSignal,
      ReportGenerator.peSignal, ReportGenerator.pegSignal, ReportGenerator.debtSignal,
      ReportGenerator.fcfSignal, ReportGenerator.shortSignal,
      ReportGenerator.insiderSignal, ReportGenerator.oneYearSignal,
      entryA, entryC]
  have hh : (ReportGenerator.identifyDarkHorses
      (ReportGenerator.analyzedOf [entryA, entryC])).2.length ≤ 1 := by
    norm_num [ReportGenerator.analyzedOf, ReportGenerator.analyzeStock,
      ReportGenerator.identifyDarkHorses, ReportGenerator.qualifiesDarkHorse,
      ReportGenerator.darkHorseReasons, ReportGenerator.updateDarkHorse,
      ReportGenerator.calculateScore, ReportGenerator.athBonus,
      ReportGenerator.mentionsBonus, ReportGenerator.sentimentBonus,
      ReportGenerator.rsiBonus, ReportGenerator.peBonus, ReportGenerator.pegBonus,
      ReportGenerator.debtBonus, ReportGenerator.fcfBonus,
      ReportGenerator.insiderBonus, ReportGenerator.upsideBonus, round2,
      ReportGenerator.countSignals, ReportGenerator.rsiSignal,
      ReportGenerator.peSignal, ReportGenerator.pegSignal, ReportGenerator.debtSignal,
      ReportGenerator.fcfSignal, ReportGenerator.shortSignal,
      ReportGenerator.insiderSignal, ReportGenerator.oneYearSignal,
      entryA, entryC, DARK_HORSE_MAX_MENTIONS]
  exact ⟨hp, hd, hh, pipeline_permutation_invariant [entryA, entryC] [entryC, entryA] hp hd hh⟩
